import Mathlib

/-!
Shallow embedding of the time-tracking core of the backend-api repository.

Timestamps are modelled as integers (milliseconds since the Unix epoch,
mirroring JavaScript `Date.getTime()`); hour and minute quantities are
rationals (JavaScript numbers used for exact decimal arithmetic here).

The embedding covers:
  * `src/src/utils/dateUtils.ts` (Madagascar timezone helpers),
  * `calculateEntryHours`, `createOrUpdateEntry` and the monthly
    aggregation from `src/src/models/TimeTracking.ts`,
  * the `checkOut`, `startPause`, `resumeWork`, `continueWork` request
    handlers of the time-tracking controller.

Server-local date formatting (JavaScript `Date.toDateString`, used by the
controller to locate "today's" entry) depends on the server's UTC offset,
which is threaded through as an explicit `serverOff` parameter.
-/

attribute [local semireducible] Rat.add Rat.sub Rat.mul Rat.inv Rat.ofScientific

/-- Equality of request outcomes is decidable (needed to evaluate the
embedded handlers on concrete states). -/
def exceptDecEq {ε α : Type} [DecidableEq ε] [DecidableEq α] :
    (a b : Except ε α) → Decidable (a = b)
  | Except.ok x, Except.ok y =>
      if h : x = y then isTrue (congrArg Except.ok h)
      else isFalse (fun hc => h (Except.ok.inj hc))
  | Except.ok _, Except.error _ => isFalse (fun hc => Except.noConfusion hc)
  | Except.error _, Except.ok _ => isFalse (fun hc => Except.noConfusion hc)
  | Except.error x, Except.error y =>
      if h : x = y then isTrue (congrArg Except.error h)
      else isFalse (fun hc => h (Except.error.inj hc))

instance {ε α : Type} [DecidableEq ε] [DecidableEq α] : DecidableEq (Except ε α) :=
  exceptDecEq

/-- `MADA_TIMEZONE_OFFSET = 3 * 60 * 60 * 1000` (UTC+3), from dateUtils.ts. -/
def madaOffset : Int := 3 * 60 * 60 * 1000

/-- Milliseconds per calendar day. -/
def msPerDay : Int := 86400000

/-- `getMadaTime`: shift an instant by the Madagascar offset (dateUtils.ts). -/
def getMadaTime (t : Int) : Int := t + madaOffset

/-- Proleptic-Gregorian civil date `(year, month, day)` from a day count
since 1970-01-01, as computed by JavaScript `Date` UTC accessors. -/
def civilFromDays (z0 : Int) : Int × Int × Int :=
  let z := z0 + 719468
  let era := z.fdiv 146097
  let doe := (z - era * 146097).toNat
  let yoe := (doe - doe / 1460 + doe / 36524 - doe / 146096) / 365
  let y := era * 400 + (yoe : Int)
  let doy := doe - (365 * yoe + yoe / 4 - yoe / 100)
  let mp := (5 * doy + 2) / 153
  let d := doy - (153 * mp + 2) / 5 + 1
  let m : Int := if mp < 10 then (mp : Int) + 3 else (mp : Int) - 9
  (if m ≤ 2 then y + 1 else y, m, (d : Int))

/-- Zero-pad a month/day number to two digits (ISO date formatting). -/
def pad2 (n : Int) : String :=
  if n < 10 then "0" ++ toString n else toString n

/-- Render a civil date as the `YYYY-MM-DD` part of `toISOString`. -/
def isoDatePart (c : Int × Int × Int) : String :=
  toString c.1 ++ "-" ++ pad2 c.2.1 ++ "-" ++ pad2 c.2.2

/-- `getMadaDateString`: the `YYYY-MM-DD` string of the Madagascar-shifted
instant (dateUtils.ts). -/
def getMadaDateString (t : Int) : String :=
  isoDatePart (civilFromDays ((getMadaTime t).fdiv msPerDay))

/-- `isSameMadaDay` (dateUtils.ts): two instants fall on the same
Madagascar calendar day. -/
def isSameMadaDay (t1 t2 : Int) : Bool :=
  getMadaDateString t1 == getMadaDateString t2

/-- `Date.getUTCHours` of an (already shifted) instant. -/
def getUTCHours (t : Int) : Int := (t.fdiv 3600000).emod 24

/-- The `(month, year)` part of `getMadaDateComponents` (dateUtils.ts):
month is 1-based. -/
def getMadaMonthYear (t : Int) : Int × Int :=
  let c := civilFromDays ((getMadaTime t).fdiv msPerDay)
  (c.2.1, c.1)

/-- JavaScript `Date.toDateString` comparison key under a server whose
local time is UTC + `off`: the server-local calendar date, rendered
canonically (two `toDateString` values are equal iff these strings are). -/
def localDateString (off t : Int) : String :=
  isoDatePart (civilFromDays ((t + off).fdiv msPerDay))

/-- The instant produced by `yesterday.setDate(getDate()-1)` followed by
`setHours(23, 59, 59, 999)` on a copy of `now`, on a server at UTC + `off`:
23:59:59.999 server-local time of the server-local day before `now`. -/
def yesterdayEndLocal (off now : Int) : Int :=
  ((now + off).fdiv msPerDay - 1) * msPerDay + 86399999 - off

/-- Elapsed hours between two instants: `(b - a) / (1000*60*60)`. -/
def hoursBetween (a b : Int) : ℚ := ((b - a : Int) : ℚ) / 3600000

/-- Elapsed minutes between two instants: `(b - a) / (1000*60)`. -/
def minutesBetween (a b : Int) : ℚ := ((b - a : Int) : ℚ) / 60000

/-- Entry status enumeration (`partialDay` embeds the source's string
value for a partial day, which Lean cannot use verbatim as a name). -/
inductive Status where
  | present
  | absent
  | late
  | partialDay
  | in_progress
  | completed
deriving DecidableEq

/-- `IBreak`: a work pause; `stop` embeds the source field `end` (a Lean
keyword); `duration` is in minutes and absent until the break is closed. -/
structure Break where
  start : Int
  stop : Option Int
  duration : Option ℚ
deriving DecidableEq

/-- `ITimeEntry`: one day's tracking record. -/
structure TimeEntry where
  date : Int
  checkIn : Option Int
  checkOut : Option Int
  breaks : List Break
  totalHours : ℚ
  breakHours : ℚ
  netHours : ℚ
  status : Status
  isPaused : Bool
  lastResumeTime : Option Int
  overtimeRequested : Bool
  overtimeApproved : Bool
  overtimeStarted : Bool
  overtimeHours : ℚ
deriving DecidableEq

/-- Return value of `calculateEntryHours`. -/
structure AutoCheckoutResult where
  shouldAutoCheckout : Bool
  autoCheckoutReason : Option String
deriving DecidableEq

/-- Reducer of the first `breaks.reduce` of `calculateEntryHours`: closed
breaks contribute `end - start`, open breaks contribute `now - start`. -/
def liveBreakStep (now : Int) (total : ℚ) (b : Break) : ℚ :=
  match b.stop with
  | some e => total + hoursBetween b.start e
  | none => total + hoursBetween b.start now

/-- The first `breaks.reduce` of `calculateEntryHours`. -/
def breakHoursLive (breaks : List Break) (now : Int) : ℚ :=
  breaks.foldl (liveBreakStep now) 0

/-- Reducer of the second `breaks.reduce` of `calculateEntryHours` (after
auto checkout): only breaks with an `end` contribute. -/
def closedBreakStep (total : ℚ) (b : Break) : ℚ :=
  match b.stop with
  | some e => total + hoursBetween b.start e
  | none => total

/-- The second `breaks.reduce` of `calculateEntryHours`. -/
def breakHoursClosed (breaks : List Break) : ℚ :=
  breaks.foldl closedBreakStep 0

/-- The `breaks.forEach` of the auto-checkout block: close every open
break at the checkout instant and record its duration in minutes. -/
def closeOpenBreaksAt (breaks : List Break) (t : Int) : List Break :=
  breaks.map
    (fun b =>
      match b.stop with
      | some _ => b
      | none => { b with stop := some t, duration := some (minutesBetween b.start t) })

/-- Lines 181-259 of TimeTracking.ts: live totals and the auto-checkout
decision/mutation. Returns the (possibly closed) entry, the totals the
code left in `entry.totalHours` / `entry.breakHours`, and the result
record. The comparison `autoCheckoutReason === 'nouveau jour'` is kept
verbatim even though the reason assigned is `'nouveau jour (Mada)'`. -/
def autoCheckoutStage (serverOff : Int) (entry : TimeEntry) (checkInT now : Int)
    (forceCheckout : Bool) : TimeEntry × ℚ × ℚ × AutoCheckoutResult :=
  match entry.checkOut with
  | some checkOutT =>
      (entry, hoursBetween checkInT checkOutT, breakHoursLive entry.breaks now,
        ⟨false, none⟩)
  | none =>
      let isNewDay : Bool := getMadaDateString checkInT != getMadaDateString now
      let shouldAuto : Bool := (getUTCHours (getMadaTime now) == 0) || isNewDay
      let reason : Option String :=
        if shouldAuto then
          some (if isNewDay then "nouveau jour (Mada)" else "minuit atteint (Mada)")
        else none
      if shouldAuto || forceCheckout then
        let finalCheckoutTime : Int :=
          if reason == some "nouveau jour" then yesterdayEndLocal serverOff now else now
        let breaks1 := closeOpenBreaksAt entry.breaks finalCheckoutTime
        let entry1 :=
          { entry with
              breaks := breaks1
              checkOut := some finalCheckoutTime
              isPaused := false }
        (entry1, hoursBetween checkInT finalCheckoutTime, breakHoursClosed breaks1,
          ⟨shouldAuto, reason⟩)
      else
        (entry, hoursBetween checkInT now, breakHoursLive entry.breaks now,
          ⟨shouldAuto, reason⟩)

/-- Lines 261-279 of TimeTracking.ts: net/overtime computation and the
status rule, applied to the entry produced by the auto-checkout stage. -/
def applyNetAndStatus (entry1 : TimeEntry) (totalHours1 breakHours1 : ℚ) : TimeEntry :=
  let rawNetHours : ℚ := max 0 (totalHours1 - breakHours1)
  let net_ot : ℚ × ℚ :=
    if entry1.overtimeStarted then (8, max 0 (rawNetHours - 8))
    else (min 8 rawNetHours, 0)
  let status : Status :=
    if entry1.checkOut.isNone then Status.in_progress
    else if net_ot.1 + net_ot.2 ≥ 8 then Status.completed
    else if net_ot.1 ≥ 4 then Status.partialDay
    else Status.present
  { entry1 with
      totalHours := totalHours1
      breakHours := breakHours1
      netHours := net_ot.1
      overtimeHours := net_ot.2
      status := status }

/-- `calculateEntryHours(entry, forceCheckout)` of TimeTracking.ts, with
the wall clock `now` and the server UTC offset made explicit. -/
def calculateEntryHours (serverOff : Int) (entry : TimeEntry) (now : Int)
    (forceCheckout : Bool) : TimeEntry × AutoCheckoutResult :=
  match entry.checkIn with
  | none =>
      ({ entry with totalHours := 0, breakHours := 0, netHours := 0 },
        ⟨false, none⟩)
  | some checkInT =>
      let s := autoCheckoutStage serverOff entry checkInT now forceCheckout
      (applyNetAndStatus s.1 s.2.1 s.2.2.1, s.2.2.2)

/-- `ITimeTrackingDocument`: the per-`(user, month, year)` document (the
user id is fixed throughout and omitted). -/
structure Tracking where
  month : Int
  year : Int
  entries : List TimeEntry
  totalHoursMonth : ℚ
deriving DecidableEq

/-- `Partial<ITimeEntry>` as passed to `createOrUpdateEntry`: only the
fields the repository's callers ever supply; `none` means the key is
absent from the object (so `Object.assign` leaves the target untouched). -/
structure EntryData where
  date : Int
  checkIn : Option Int
  checkOut : Option Int
  status : Option Status
  breaks : Option (List Break)
deriving DecidableEq

/-- `Object.assign(existingEntry, entryData)`: present keys overwrite. -/
def applyEntryData (e : TimeEntry) (d : EntryData) : TimeEntry :=
  { e with
      date := d.date
      checkIn := match d.checkIn with | some v => some v | none => e.checkIn
      checkOut := match d.checkOut with | some v => some v | none => e.checkOut
      status := match d.status with | some v => v | none => e.status
      breaks := match d.breaks with | some v => v | none => e.breaks }

/-- `{...entryData, breaks: entryData.breaks || []}` completed by the
mongoose schema defaults for the unspecified fields. -/
def newEntryFrom (d : EntryData) : TimeEntry :=
  { date := d.date
    checkIn := d.checkIn
    checkOut := d.checkOut
    breaks := d.breaks.getD []
    totalHours := 0
    breakHours := 0
    netHours := 0
    status := d.status.getD Status.absent
    isPaused := false
    lastResumeTime := none
    overtimeRequested := false
    overtimeApproved := false
    overtimeStarted := false
    overtimeHours := 0 }

/-- Replace the first element satisfying `p` by its image under `f`
(in-place mutation of the object returned by `Array.prototype.find`). -/
def updateFirst (p : α → Bool) (f : α → α) : List α → List α
  | [] => []
  | x :: xs => if p x then f x :: xs else x :: updateFirst p f xs

/-- Reducer of the monthly aggregation. -/
def addNetHours (total : ℚ) (e : TimeEntry) : ℚ := total + e.netHours

/-- `entries.reduce((total, entry) => total + (entry.netHours || 0), 0)`. -/
def sumNetHours (entries : List TimeEntry) : ℚ :=
  entries.foldl addNetHours 0

/-- Lines 304-330 of TimeTracking.ts: update or append the entry matched
by the Madagascar date string of `entryData.date`, recompute its hours,
then recompute `totalHoursMonth` as the sum of net hours. -/
def createOrUpdateEntryIn (serverOff : Int) (tracking : Tracking) (d : EntryData)
    (now : Int) : Tracking :=
  let key := getMadaDateString d.date
  let entries1 :=
    if tracking.entries.any (fun e => getMadaDateString e.date == key) then
      updateFirst (fun e => getMadaDateString e.date == key)
        (fun e => (calculateEntryHours serverOff (applyEntryData e d) now false).1)
        tracking.entries
    else
      tracking.entries ++ [(calculateEntryHours serverOff (newEntryFrom d) now false).1]
  { tracking with entries := entries1, totalHoursMonth := sumNetHours entries1 }

/-- Rejection outcomes of the controller operations (HTTP 400/500 paths),
one constructor per distinct source response. -/
inductive OpError where
  /-- `Aucun pointage trouve` / tracking document missing. -/
  | noTracking
  /-- `Aucun pointage d arrivee trouve (pour aujourd hui)`. -/
  | noCheckInFound
  /-- `Vous devez etre en cours de travail pour faire une pause`. -/
  | mustBeWorking
  /-- `Aucune pause en cours`. -/
  | noOpenBreak
  /-- `La journee est deja en cours, inutile de reprendre`. -/
  | dayStillOpen
  /-- MongoDB `E11000 duplicate key` on saving a new monthly document. -/
  | duplicateKey
deriving DecidableEq

/-- `findOne({user, month, year})` then `new this(...)` then `save()`:
the full `createOrUpdateEntry` static over a list of monthly documents.
`concurrentInserts` are documents committed by other requests between the
`findOne` and the `save`; the unique index on `(user, month, year)` makes
the save of a freshly constructed document fail when a concurrent insert
already took the key. The source has no catch/retry around the save, so
that failure propagates. -/
def createOrUpdateEntry (serverOff : Int) (db : List Tracking) (d : EntryData)
    (now : Int) (concurrentInserts : List Tracking) : Except OpError (List Tracking) :=
  let my := getMadaMonthYear d.date
  match db.find? (fun t => t.month == my.1 && t.year == my.2) with
  | some _ =>
      Except.ok
        (updateFirst (fun t => t.month == my.1 && t.year == my.2)
          (fun t => createOrUpdateEntryIn serverOff t d now) db ++ concurrentInserts)
  | none =>
      let fresh : Tracking := ⟨my.1, my.2, [], 0⟩
      let t1 := createOrUpdateEntryIn serverOff fresh d now
      if concurrentInserts.any (fun t => t.month == my.1 && t.year == my.2) then
        Except.error OpError.duplicateKey
      else
        Except.ok (db ++ concurrentInserts ++ [t1])

/-- `tracking.entries.find(entry => entry.date.toDateString() === today)`
with `today = new Date().toDateString()` on a server at UTC + `off`. -/
def findTodayEntry (off : Int) (entries : List TimeEntry) (now : Int) : Option TimeEntry :=
  entries.find? (fun e => localDateString off e.date == localDateString off now)

/-- The entry-replacement predicate used by the controller mutations. -/
def isTodayEntry (off now : Int) (e : TimeEntry) : Bool :=
  localDateString off e.date == localDateString off now

/-- Resulting tracking state of a controller call: an error response
leaves the stored document untouched. -/
def runTracking (r : Except OpError Tracking) (tracking : Tracking) : Tracking :=
  match r with
  | Except.ok t => t
  | Except.error _ => tracking

/-- `startPause` (POST /pause): push `{start: now}` onto today's entry's
breaks and set `isPaused`, unless the entry is absent, has no check-in,
or is already checked out. -/
def startPause (off : Int) (tracking : Tracking) (now : Int) : Except OpError Tracking :=
  match findTodayEntry off tracking.entries now with
  | none => Except.error OpError.mustBeWorking
  | some e =>
      if e.checkIn.isNone || e.checkOut.isSome then
        Except.error OpError.mustBeWorking
      else
        Except.ok
          { tracking with
              entries :=
                updateFirst (isTodayEntry off now)
                  (fun e2 =>
                    { e2 with breaks := e2.breaks ++ [⟨now, none, none⟩], isPaused := true })
                  tracking.entries }

/-- `resumeWork` (POST /resume): close the last break at `now`, unless
the entry is absent, has no check-in, or its last break is missing or
already ended. -/
def resumeWork (off : Int) (tracking : Tracking) (now : Int) : Except OpError Tracking :=
  match findTodayEntry off tracking.entries now with
  | none => Except.error OpError.noCheckInFound
  | some e =>
      if e.checkIn.isNone then Except.error OpError.noCheckInFound
      else
        match e.breaks.getLast? with
        | none => Except.error OpError.noOpenBreak
        | some lastBreak =>
            if lastBreak.stop.isSome then Except.error OpError.noOpenBreak
            else
              Except.ok
                { tracking with
                    entries :=
                      updateFirst (isTodayEntry off now)
                        (fun e2 =>
                          match e2.breaks.getLast? with
                          | none => e2
                          | some lb =>
                              { e2 with
                                  breaks := e2.breaks.dropLast ++
                                    [⟨lb.start, some now, some (minutesBetween lb.start now)⟩]
                                  isPaused := false
                                  lastResumeTime := some now })
                        tracking.entries }

/-- `continueWork` (POST /continue): record the gap since the previous
checkout as a break, clear `checkOut`, recompute the entry's hours — the
month total `totalHoursMonth` is NOT recomputed by this handler. -/
def continueWork (off : Int) (tracking : Tracking) (now : Int) : Except OpError Tracking :=
  match findTodayEntry off tracking.entries now with
  | none => Except.error OpError.noCheckInFound
  | some e =>
      if e.checkIn.isNone then Except.error OpError.noCheckInFound
      else
        match e.checkOut with
        | none => Except.error OpError.dayStillOpen
        | some _ =>
            Except.ok
              { tracking with
                  entries :=
                    updateFirst (isTodayEntry off now)
                      (fun e2 =>
                        match e2.checkOut with
                        | none => e2
                        | some previousCheckOut =>
                            let e3 :=
                              { e2 with
                                  breaks := e2.breaks ++
                                    [⟨previousCheckOut, some now,
                                      some (minutesBetween previousCheckOut now)⟩]
                                  checkOut := none
                                  isPaused := false
                                  lastResumeTime := some now }
                            (calculateEntryHours off e3 now false).1)
                      tracking.entries }

/-- `checkOut` (POST /checkout): requires today's entry (located by the
server-local `toDateString`) to exist with a check-in; then routes the
update through `createOrUpdateEntry` on the single monthly document. -/
def checkOutOp (off : Int) (tracking : Option Tracking) (now : Int) :
    Except OpError Tracking :=
  match tracking with
  | none => Except.error OpError.noCheckInFound
  | some tr =>
      match findTodayEntry off tr.entries now with
      | none => Except.error OpError.noCheckInFound
      | some e =>
          if e.checkIn.isNone then Except.error OpError.noCheckInFound
          else
            Except.ok (createOrUpdateEntryIn off tr ⟨now, none, some now, none, none⟩ now)

/-- `checkIn` (POST /checkin): `createOrUpdateEntry(userId, {date: now,
checkIn: now, status: 'present'})` on the monthly document. -/
def checkInOp (off : Int) (tracking : Tracking) (now : Int) : Tracking :=
  createOrUpdateEntryIn off tracking ⟨now, some now, none, some Status.present, none⟩ now

/-- Did the request succeed (HTTP 200 rather than a 4xx/5xx response)? -/
def opSucceeds (r : Except OpError Tracking) : Bool :=
  match r with
  | Except.ok _ => true
  | Except.error _ => false

/-- Day-rollover scenario: check-in at 23:00 Madagascar time of Madagascar
day 1970-01-05 (instant `417600000`), still open. -/
def c1Entry : TimeEntry :=
  { date := 417600000, checkIn := some 417600000, checkOut := none, breaks := []
    totalHours := 0, breakHours := 0, netHours := 0, status := Status.in_progress
    isPaused := false, lastResumeTime := none, overtimeRequested := false
    overtimeApproved := false, overtimeStarted := false, overtimeHours := 0 }

/-- The recompute instant of the day-rollover scenario: 00:30 Madagascar
time of 1970-01-06. -/
def c1Now : Int := 423000000

/-- The instant the auto-checkout policy is specified to choose:
23:59:59.999 Madagascar time of 1970-01-05. -/
def c1SpecCheckout : Int := 421199999

/-- A structurally closed entry without a check-in whose overtime workflow
flags are populated (checkOut present, overtimeStarted, stale
overtimeHours). -/
def c2CexEntry : TimeEntry :=
  { date := 0, checkIn := none, checkOut := some 0, breaks := []
    totalHours := 3, breakHours := 1, netHours := 2, status := Status.present
    isPaused := false, lastResumeTime := none, overtimeRequested := true
    overtimeApproved := true, overtimeStarted := true, overtimeHours := 5 }

/-- Reachable pre-state for the `continueWork` month-total violation:
check-in 08:00, break opened 09:00 and never closed, checkout issued at
10:00 (which left the open break open and stored `netHours = 1`). -/
def c3CexEntry : TimeEntry :=
  { date := 28800000, checkIn := some 28800000, checkOut := some 36000000
    breaks := [⟨32400000, none, none⟩]
    totalHours := 2, breakHours := 1, netHours := 1, status := Status.present
    isPaused := true, lastResumeTime := none, overtimeRequested := false
    overtimeApproved := false, overtimeStarted := false, overtimeHours := 0 }

/-- Monthly document owning `c3CexEntry`, with the aggregation invariant
holding (`totalHoursMonth = 1 = sum of netHours`). -/
def c3CexTracking : Tracking := ⟨1, 1970, [c3CexEntry], 1⟩

/-- The `continueWork` instant of the month-total violation: 11:00. -/
def c3CexNow : Int := 39600000

/-- An entry with no check-in but a stale nonzero `overtimeHours`. -/
def c4CexEntry : TimeEntry :=
  { date := 0, checkIn := none, checkOut := none, breaks := []
    totalHours := 0, breakHours := 0, netHours := 0, status := Status.absent
    isPaused := false, lastResumeTime := none, overtimeRequested := false
    overtimeApproved := false, overtimeStarted := false, overtimeHours := 5 }

/-- Spec scenario: check-in `2024-03-01T06:00Z`, one break
`07:00Z`-`07:30Z` (10:00-10:30 Madagascar), checkout `2024-03-01T14:00Z`,
overtime not started. -/
def c5Entry : TimeEntry :=
  { date := 1709272800000, checkIn := some 1709272800000
    checkOut := some 1709301600000
    breaks := [⟨1709276400000, some 1709278200000, some 30⟩]
    totalHours := 0, breakHours := 0, netHours := 0, status := Status.absent
    isPaused := false, lastResumeTime := none, overtimeRequested := false
    overtimeApproved := false, overtimeStarted := false, overtimeHours := 0 }

/-- Entry created by a check-in at instant `79200000` (01:00 Madagascar
time of 1970-01-02, 22:00 UTC of 1970-01-01). -/
def c7Entry : TimeEntry :=
  { date := 79200000, checkIn := some 79200000, checkOut := none, breaks := []
    totalHours := 0, breakHours := 0, netHours := 0, status := Status.present
    isPaused := false, lastResumeTime := none, overtimeRequested := false
    overtimeApproved := false, overtimeStarted := false, overtimeHours := 0 }

/-- Monthly document owning `c7Entry`. -/
def c7Tracking : Tracking := ⟨1, 1970, [c7Entry], 0⟩

/-- Check-out attempt instant: 04:00 Madagascar time of 1970-01-02
(01:00 UTC of 1970-01-02) — the same Madagascar day as `c7Entry`. -/
def c7Now : Int := 90000000

/-- Entry data of a first check-in of a month. -/
def c9Data : EntryData := ⟨0, some 0, none, some Status.present, none⟩

/-- Monthly document committed by a concurrent request for the same
`(user, month, year)` key between the `findOne` and the `save`. -/
def c9Concurrent : Tracking := ⟨1, 1970, [], 0⟩

/-- Witness data: a plainly closed 8-hour entry with one closed 30-minute
break. -/
def sampleClosedEntry : TimeEntry :=
  { date := 0, checkIn := some 0, checkOut := some 28800000
    breaks := [⟨10800000, some 12600000, some 30⟩]
    totalHours := 0, breakHours := 0, netHours := 0, status := Status.present
    isPaused := false, lastResumeTime := none, overtimeRequested := false
    overtimeApproved := false, overtimeStarted := false, overtimeHours := 0 }

/-- Witness data: monthly document holding `sampleClosedEntry`. -/
def closedTracking : Tracking := ⟨1, 1970, [sampleClosedEntry], 0⟩

/-- Witness data: an open entry, currently paused (last break open). -/
def pausedEntry : TimeEntry :=
  { date := 36000000, checkIn := some 36000000, checkOut := none
    breaks := [⟨37000000, none, none⟩]
    totalHours := 0, breakHours := 0, netHours := 0, status := Status.in_progress
    isPaused := true, lastResumeTime := none, overtimeRequested := false
    overtimeApproved := false, overtimeStarted := false, overtimeHours := 0 }

/-- Witness data: monthly document holding `pausedEntry`, with the
aggregation invariant holding. -/
def pausedTracking : Tracking := ⟨1, 1970, [pausedEntry], 0⟩

/-- Witness data: an open entry with no breaks. -/
def openEntryNoBreaks : TimeEntry :=
  { date := 36000000, checkIn := some 36000000, checkOut := none, breaks := []
    totalHours := 0, breakHours := 0, netHours := 0, status := Status.in_progress
    isPaused := false, lastResumeTime := none, overtimeRequested := false
    overtimeApproved := false, overtimeStarted := false, overtimeHours := 0 }

/-- Witness data: monthly document holding `openEntryNoBreaks`. -/
def openTracking : Tracking := ⟨1, 1970, [openEntryNoBreaks], 0⟩

/-- Witness data: an entry with two simultaneously open breaks, as left
behind by two consecutive `startPause` calls. -/
def doubleBreakEntry : TimeEntry :=
  { date := 36000000, checkIn := some 36000000, checkOut := none
    breaks := [⟨37000000, none, none⟩, ⟨37800000, none, none⟩]
    totalHours := 0, breakHours := 0, netHours := 0, status := Status.in_progress
    isPaused := true, lastResumeTime := none, overtimeRequested := false
    overtimeApproved := false, overtimeStarted := false, overtimeHours := 0 }

/-!
Helper lemmas about the embedded operations.
-/

theorem liveBreakStep_eq_closed (now : Int) (b : Break) (h : b.stop.isSome = true)
    (acc : ℚ) : liveBreakStep now acc b = closedBreakStep acc b := by
  obtain ⟨e, he⟩ := Option.isSome_iff_exists.mp h
  simp [liveBreakStep, closedBreakStep, he]

theorem foldl_live_eq_closed (now : Int) :
    ∀ (bs : List Break), (∀ b ∈ bs, b.stop.isSome = true) →
      ∀ acc : ℚ, bs.foldl (liveBreakStep now) acc = bs.foldl closedBreakStep acc := by
  intro bs
  induction bs with
  | nil => intro _ acc; rfl
  | cons b tl ih =>
      intro h acc
      simp only [List.foldl_cons]
      rw [liveBreakStep_eq_closed now b (h b (by simp))]
      exact ih (fun x hx => h x (by simp [hx])) _

theorem breakHoursLive_eq_closed (bs : List Break) (now : Int)
    (h : ∀ b ∈ bs, b.stop.isSome = true) :
    breakHoursLive bs now = breakHoursClosed bs :=
  foldl_live_eq_closed now bs h 0

theorem foldl_closeOpen (t : Int) :
    ∀ (bs : List Break) (acc : ℚ),
      (closeOpenBreaksAt bs t).foldl closedBreakStep acc = bs.foldl (liveBreakStep t) acc := by
  intro bs
  induction bs with
  | nil => intro acc; rfl
  | cons b tl ih =>
      intro acc
      cases hb : b.stop with
      | some e =>
          simp only [closeOpenBreaksAt, List.map_cons, List.foldl_cons, hb]
          rw [show closedBreakStep acc b = liveBreakStep t acc b by
            simp [closedBreakStep, liveBreakStep, hb]]
          exact ih _
      | none =>
          simp only [closeOpenBreaksAt, List.map_cons, List.foldl_cons, hb]
          rw [show closedBreakStep acc
              { b with stop := some t, duration := some (minutesBetween b.start t) } =
              liveBreakStep t acc b by simp [closedBreakStep, liveBreakStep, hb]]
          exact ih _

theorem breakHoursClosed_closeOpen (bs : List Break) (t : Int) :
    breakHoursClosed (closeOpenBreaksAt bs t) = breakHoursLive bs t :=
  foldl_closeOpen t bs 0

theorem applyNet_totalHours (e1 : TimeEntry) (T B : ℚ) :
    (applyNetAndStatus e1 T B).totalHours = T := rfl

theorem applyNet_breakHours (e1 : TimeEntry) (T B : ℚ) :
    (applyNetAndStatus e1 T B).breakHours = B := rfl

theorem applyNet_checkIn (e1 : TimeEntry) (T B : ℚ) :
    (applyNetAndStatus e1 T B).checkIn = e1.checkIn := rfl

theorem applyNet_checkOut (e1 : TimeEntry) (T B : ℚ) :
    (applyNetAndStatus e1 T B).checkOut = e1.checkOut := rfl

theorem applyNet_breaks (e1 : TimeEntry) (T B : ℚ) :
    (applyNetAndStatus e1 T B).breaks = e1.breaks := rfl

theorem applyNet_overtimeStarted (e1 : TimeEntry) (T B : ℚ) :
    (applyNetAndStatus e1 T B).overtimeStarted = e1.overtimeStarted := rfl

theorem applyNet_netHours (e1 : TimeEntry) (T B : ℚ) :
    (applyNetAndStatus e1 T B).netHours =
      if e1.overtimeStarted then 8 else min 8 (max 0 (T - B)) := by
  cases h : e1.overtimeStarted <;> simp [applyNetAndStatus, h]

theorem applyNet_overtimeHours (e1 : TimeEntry) (T B : ℚ) :
    (applyNetAndStatus e1 T B).overtimeHours =
      if e1.overtimeStarted then max 0 (max 0 (T - B) - 8) else 0 := by
  cases h : e1.overtimeStarted <;> simp [applyNetAndStatus, h]

theorem applyNet_status_rule (e1 : TimeEntry) (T B : ℚ) :
    (applyNetAndStatus e1 T B).status =
      if (applyNetAndStatus e1 T B).checkOut.isNone then Status.in_progress
      else if (applyNetAndStatus e1 T B).netHours +
          (applyNetAndStatus e1 T B).overtimeHours ≥ 8 then Status.completed
      else if (applyNetAndStatus e1 T B).netHours ≥ 4 then Status.partialDay
      else Status.present := rfl

theorem applyNet_idem (e1 : TimeEntry) (T B : ℚ) :
    applyNetAndStatus (applyNetAndStatus e1 T B) T B = applyNetAndStatus e1 T B := rfl

theorem autoStage_closed (off : Int) (e : TimeEntry) (ci now : Int) (f : Bool)
    (c : Int) (h : e.checkOut = some c) :
    autoCheckoutStage off e ci now f =
      (e, hoursBetween ci c, breakHoursLive e.breaks now, ⟨false, none⟩) := by
  unfold autoCheckoutStage
  rw [h]

theorem calc_closed (off : Int) (e : TimeEntry) (now : Int) (f : Bool) (ci c : Int)
    (hci : e.checkIn = some ci) (hco : e.checkOut = some c) :
    calculateEntryHours off e now f =
      (applyNetAndStatus e (hoursBetween ci c) (breakHoursLive e.breaks now),
        ⟨false, none⟩) := by
  simp only [calculateEntryHours, hci, autoStage_closed off e ci now f c hco]

theorem max_zero_shift (x : ℚ) : max 0 (max 0 x - 8) = max 0 (x - 8) := by
  rcases le_total x 0 with h | h
  · have h1 : max 0 x = 0 := max_eq_left h
    have h2 : (0 : ℚ) - 8 ≤ 0 := by norm_num
    have h3 : x - 8 ≤ 0 := by linarith
    rw [h1, max_eq_left h2, max_eq_left h3]
  · rw [max_eq_right h]

theorem foldl_addNet_updateFirst (p : TimeEntry → Bool) (f : TimeEntry → TimeEntry)
    (hf : ∀ a, (f a).netHours = a.netHours) :
    ∀ (l : List TimeEntry) (acc : ℚ),
      (updateFirst p f l).foldl addNetHours acc = l.foldl addNetHours acc := by
  intro l
  induction l with
  | nil => intro acc; rfl
  | cons x xs ih =>
      intro acc
      by_cases h : p x
      · simp [updateFirst, h, addNetHours, hf x]
      · simp [updateFirst, h, addNetHours, ih]

theorem sumNet_updateFirst (p : TimeEntry → Bool) (f : TimeEntry → TimeEntry)
    (hf : ∀ a, (f a).netHours = a.netHours) (l : List TimeEntry) :
    sumNetHours (updateFirst p f l) = sumNetHours l :=
  foldl_addNet_updateFirst p f hf l 0

theorem reason_mismatch (b : Bool) :
    ((some (if b then "nouveau jour (Mada)" else "minuit atteint (Mada)") :
        Option String) == some "nouveau jour") = false := by
  cases b <;> rfl

/-!
Claim theorems.
-/

/-- C1: for an Entry checked in at 23:00 Madagascar time on day D
(1970-01-05) and recomputed at 00:30 Madagascar time on day D+1, the
auto-checkout policy fires, but the code closes the entry at the
recompute instant `now` instead of 23:59:59.999 of the entry's own
Madagascar day: the branch comparing the reason to `nouveau jour` is dead
because the reason assigned is `nouveau jour (Mada)`. -/
theorem c1_auto_checkout_closes_at_now :
    (calculateEntryHours 0 c1Entry c1Now false).2.shouldAutoCheckout = true ∧
    (calculateEntryHours 0 c1Entry c1Now false).2.autoCheckoutReason =
      some "nouveau jour (Mada)" ∧
    (calculateEntryHours 0 c1Entry c1Now false).1.checkOut = some c1Now ∧
    c1Now ≠ c1SpecCheckout ∧
    getMadaDateString c1SpecCheckout = getMadaDateString 417600000 ∧
    getMadaDateString c1Now ≠ getMadaDateString 417600000 := by decide

/-- C7: the instants `c7Entry.date` and `c7Now` lie on the same
Madagascar calendar day, yet on a server running at UTC (offset 0) the
check-out, pause, resume and continue handlers all fail to find the entry
created by the check-in, because they compare server-local
`toDateString()` values instead of Madagascar-normalized date strings. -/
theorem c7_controllers_use_server_local_day :
    isSameMadaDay c7Entry.date c7Now = true ∧
    getMadaDateString c7Entry.date = getMadaDateString c7Now ∧
    localDateString 0 c7Entry.date ≠ localDateString 0 c7Now ∧
    checkOutOp 0 (some c7Tracking) c7Now = Except.error OpError.noCheckInFound ∧
    startPause 0 c7Tracking c7Now = Except.error OpError.mustBeWorking ∧
    resumeWork 0 c7Tracking c7Now = Except.error OpError.noCheckInFound ∧
    continueWork 0 c7Tracking c7Now = Except.error OpError.noCheckInFound ∧
    findTodayEntry 0 c7Tracking.entries c7Now = none := by decide

/-- C2 counterexample: an Entry with `checkOut` present but no `checkIn`
and `overtimeStarted = true` is closed after the calculator runs, yet its
`netHours` is 0 (not 8) and its `overtimeHours` keeps its stale value 5
instead of `max 0 (totalHours - breakHours - 8) = 0`. -/
theorem c2_counterexample :
    ((calculateEntryHours 0 c2CexEntry 100 false).1.checkOut).isSome = true ∧
    (calculateEntryHours 0 c2CexEntry 100 false).1.overtimeStarted = true ∧
    (calculateEntryHours 0 c2CexEntry 100 false).1.netHours ≠ 8 ∧
    (calculateEntryHours 0 c2CexEntry 100 false).1.overtimeHours ≠
      max 0 ((calculateEntryHours 0 c2CexEntry 100 false).1.totalHours -
        (calculateEntryHours 0 c2CexEntry 100 false).1.breakHours - 8) := by decide

/-- C3 counterexample: `continueWork` succeeds on `c3CexTracking` (whose
aggregation invariant holds beforehand), recomputes the entry's
`netHours` to 0, but leaves `totalHoursMonth` at 1, so after this
Entry-mutating operation the month total no longer equals the sum of the
entries' net hours. -/
theorem c3_counterexample :
    c3CexTracking.totalHoursMonth = sumNetHours c3CexTracking.entries ∧
    opSucceeds (continueWork 0 c3CexTracking c3CexNow) = true ∧
    (runTracking (continueWork 0 c3CexTracking c3CexNow) c3CexTracking).totalHoursMonth = 1 ∧
    sumNetHours (runTracking (continueWork 0 c3CexTracking c3CexNow) c3CexTracking).entries
      = 0 := by decide

/-- C4 counterexample: for an Entry with no `checkIn` and a stale
`overtimeHours = 5`, the calculator zeroes `totalHours`, `breakHours` and
`netHours` but leaves `overtimeHours` at 5 — not all four derived fields
are set to 0. -/
theorem c4_counterexample :
    c4CexEntry.checkIn = none ∧
    (calculateEntryHours 0 c4CexEntry 0 false).1.totalHours = 0 ∧
    (calculateEntryHours 0 c4CexEntry 0 false).1.overtimeHours = 5 := by decide

/-- C9 counterexample: when the monthly document for the key of
`c9Data.date` does not exist and a concurrent request inserts one between
the `findOne` and the `save`, `createOrUpdateEntry` propagates the
uniqueness-violation error to its caller — there is no re-fetch and
retry. -/
theorem c9_counterexample :
    createOrUpdateEntry 0 [] c9Data 0 [c9Concurrent] =
      Except.error OpError.duplicateKey := by decide

/-- C4 (amended): for every Entry with no checkIn, the calculator sets
totalHours, breakHours and netHours to 0, but leaves overtimeHours at its
previous value (the source's early return does not touch it). -/
theorem c4_amended (off : Int) (e : TimeEntry) (now : Int) (force : Bool)
    (h : e.checkIn = none) :
    (calculateEntryHours off e now force).1.totalHours = 0 ∧
    (calculateEntryHours off e now force).1.breakHours = 0 ∧
    (calculateEntryHours off e now force).1.netHours = 0 ∧
    (calculateEntryHours off e now force).1.overtimeHours = e.overtimeHours := by
  simp [calculateEntryHours, h]

/-- C4 witness: the amended statement evaluated on `c4CexEntry`. -/
theorem c4_witness :
    (calculateEntryHours 0 c4CexEntry 3 false).1.totalHours = 0 ∧
    (calculateEntryHours 0 c4CexEntry 3 false).1.breakHours = 0 ∧
    (calculateEntryHours 0 c4CexEntry 3 false).1.netHours = 0 ∧
    (calculateEntryHours 0 c4CexEntry 3 false).1.overtimeHours =
      c4CexEntry.overtimeHours :=
  c4_amended 0 c4CexEntry 3 false rfl

/-- C9 (amended): when the monthly document is absent at `findOne` time
and a concurrent insert takes the `(month, year)` key before the `save`,
`createOrUpdateEntry` propagates the uniqueness-constraint failure to the
caller; there is no re-fetch and no retry in the resolver. -/
theorem c9_amended (off : Int) (db : List Tracking) (d : EntryData) (now : Int)
    (conc : List Tracking)
    (hnone : db.find? (fun t => t.month == (getMadaMonthYear d.date).1 &&
        t.year == (getMadaMonthYear d.date).2) = none)
    (hclash : conc.any (fun t => t.month == (getMadaMonthYear d.date).1 &&
        t.year == (getMadaMonthYear d.date).2) = true) :
    createOrUpdateEntry off db d now conc = Except.error OpError.duplicateKey := by
  simp [createOrUpdateEntry, hnone, hclash]

/-- C9 witness: the amended statement evaluated on a database holding an
unrelated month while a concurrent request inserts the target month. -/
theorem c9_witness :
    createOrUpdateEntry 0 [⟨2, 1970, [], 0⟩] c9Data 5 [c9Concurrent] =
      Except.error OpError.duplicateKey :=
  c9_amended 0 [⟨2, 1970, [], 0⟩] c9Data 5 [c9Concurrent] (by decide) (by decide)

/-- C2 (amended): for every Entry with a checkIn that is closed after the
calculator has run: if overtimeStarted is false then netHours is at most
8 and overtimeHours is 0; if overtimeStarted is true then netHours is
exactly 8 and overtimeHours equals max 0 (totalHours - breakHours - 8). -/
theorem c2_amended (off : Int) (e : TimeEntry) (now : Int) (force : Bool) (ci : Int)
    (hci : e.checkIn = some ci)
    (hclosed : ((calculateEntryHours off e now force).1.checkOut).isSome = true) :
    ((calculateEntryHours off e now force).1.overtimeStarted = false →
      (calculateEntryHours off e now force).1.netHours ≤ 8 ∧
      (calculateEntryHours off e now force).1.overtimeHours = 0) ∧
    ((calculateEntryHours off e now force).1.overtimeStarted = true →
      (calculateEntryHours off e now force).1.netHours = 8 ∧
      (calculateEntryHours off e now force).1.overtimeHours =
        max 0 ((calculateEntryHours off e now force).1.totalHours -
          (calculateEntryHours off e now force).1.breakHours - 8)) := by
  have hr : (calculateEntryHours off e now force).1 =
      applyNetAndStatus (autoCheckoutStage off e ci now force).1
        (autoCheckoutStage off e ci now force).2.1
        (autoCheckoutStage off e ci now force).2.2.1 := by
    simp [calculateEntryHours, hci]
  rw [hr]
  constructor
  · intro hos
    rw [applyNet_overtimeStarted] at hos
    constructor
    · rw [applyNet_netHours, hos]
      simp [min_le_left]
    · rw [applyNet_overtimeHours, hos]
      simp
  · intro hos
    rw [applyNet_overtimeStarted] at hos
    constructor
    · rw [applyNet_netHours, hos]
      simp
    · rw [applyNet_overtimeHours, applyNet_totalHours, applyNet_breakHours, hos]
      simp only [if_pos rfl, if_true]
      exact max_zero_shift _

/-- C2 witness: the amended statement evaluated on `sampleClosedEntry`. -/
theorem c2_witness :
    ((calculateEntryHours 0 sampleClosedEntry 30000000 false).1.overtimeStarted = false →
      (calculateEntryHours 0 sampleClosedEntry 30000000 false).1.netHours ≤ 8 ∧
      (calculateEntryHours 0 sampleClosedEntry 30000000 false).1.overtimeHours = 0) ∧
    ((calculateEntryHours 0 sampleClosedEntry 30000000 false).1.overtimeStarted = true →
      (calculateEntryHours 0 sampleClosedEntry 30000000 false).1.netHours = 8 ∧
      (calculateEntryHours 0 sampleClosedEntry 30000000 false).1.overtimeHours =
        max 0 ((calculateEntryHours 0 sampleClosedEntry 30000000 false).1.totalHours -
          (calculateEntryHours 0 sampleClosedEntry 30000000 false).1.breakHours - 8)) :=
  c2_amended 0 sampleClosedEntry 30000000 false 0 rfl (by decide)

/-- C6: running the calculator a second time on an already-closed Entry
whose breaks all have an end reproduces exactly the first run's output,
for any pair of clock readings. -/
theorem c6_idempotent (off : Int) (e : TimeEntry) (n1 n2 : Int) (c : Int)
    (hco : e.checkOut = some c)
    (hb : ∀ b ∈ e.breaks, b.stop.isSome = true) :
    calculateEntryHours off (calculateEntryHours off e n1 false).1 n2 false =
      calculateEntryHours off e n1 false := by
  cases hci : e.checkIn with
  | none => simp [calculateEntryHours, hci]
  | some ci =>
      have h1 : (calculateEntryHours off e n1 false).1 =
          applyNetAndStatus e (hoursBetween ci c) (breakHoursLive e.breaks n1) := by
        rw [calc_closed off e n1 false ci c hci hco]
      rw [h1,
        calc_closed off
          (applyNetAndStatus e (hoursBetween ci c) (breakHoursLive e.breaks n1))
          n2 false ci c (by rw [applyNet_checkIn]; exact hci)
          (by rw [applyNet_checkOut]; exact hco),
        calc_closed off e n1 false ci c hci hco]
      rw [applyNet_breaks]
      rw [breakHoursLive_eq_closed e.breaks n2 hb,
        ← breakHoursLive_eq_closed e.breaks n1 hb]
      rw [applyNet_idem]

/-- C6 witness: the idempotence statement evaluated on
`sampleClosedEntry` with two different clock readings. -/
theorem c6_witness :
    calculateEntryHours 0 (calculateEntryHours 0 sampleClosedEntry 30000000 false).1
      31000000 false = calculateEntryHours 0 sampleClosedEntry 30000000 false :=
  c6_idempotent 0 sampleClosedEntry 30000000 31000000 28800000 rfl (by decide)

/-- C5: the spec scenario (check-in 06:00Z, break 07:00Z-07:30Z, checkout
14:00Z, no overtime) yields totalHours 8, breakHours 1/2, netHours 15/2
and status partial, for any clock reading; and in general, for entries
with a checkIn, the status assigned by the calculator is in_progress when
the resulting entry is open, else completed/partial/present by the
netHours + overtimeHours thresholds 8 and 4. -/
theorem c5_scenario_and_status_rule :
    (∀ now : Int,
      (calculateEntryHours 0 c5Entry now false).1.totalHours = 8 ∧
      (calculateEntryHours 0 c5Entry now false).1.breakHours = 1/2 ∧
      (calculateEntryHours 0 c5Entry now false).1.netHours = 15/2 ∧
      (calculateEntryHours 0 c5Entry now false).1.status = Status.partialDay) ∧
    (∀ (off : Int) (e : TimeEntry) (now ci : Int), e.checkIn = some ci →
      ((calculateEntryHours off e now false).1.checkOut = none →
        (calculateEntryHours off e now false).1.status = Status.in_progress) ∧
      (∀ c : Int, (calculateEntryHours off e now false).1.checkOut = some c →
        (calculateEntryHours off e now false).1.status =
          (if (calculateEntryHours off e now false).1.netHours +
              (calculateEntryHours off e now false).1.overtimeHours ≥ 8
            then Status.completed
            else if (calculateEntryHours off e now false).1.netHours ≥ 4
            then Status.partialDay
            else Status.present))) := by
  constructor
  · intro now
    rw [calc_closed 0 c5Entry now false 1709272800000 1709301600000 rfl rfl]
    have hB : breakHoursLive c5Entry.breaks now = 1/2 := by
      simp [breakHoursLive, liveBreakStep, c5Entry, hoursBetween]
      norm_num
    have hT : hoursBetween 1709272800000 1709301600000 = 8 := by
      norm_num [hoursBetween]
    refine ⟨?_, ?_, ?_, ?_⟩
    · rw [applyNet_totalHours, hT]
    · rw [applyNet_breakHours, hB]
    · rw [applyNet_netHours, hB, hT]
      norm_num [c5Entry, max_def, min_def]
    · rw [hB, hT]
      norm_num [applyNetAndStatus, c5Entry, max_def, min_def]
  · intro off e now ci hci
    have hr : (calculateEntryHours off e now false).1 =
        applyNetAndStatus (autoCheckoutStage off e ci now false).1
          (autoCheckoutStage off e ci now false).2.1
          (autoCheckoutStage off e ci now false).2.2.1 := by
      simp [calculateEntryHours, hci]
    rw [hr]
    constructor
    · intro h0
      rw [applyNet_status_rule, h0]
      simp
    · intro c hc
      rw [applyNet_status_rule, hc]
      simp

/-- C5 witness: the scenario at the checkout instant, and the status rule
on `sampleClosedEntry`. -/
theorem c5_witness :
    ((calculateEntryHours 0 c5Entry 1709305200000 false).1.totalHours = 8 ∧
      (calculateEntryHours 0 c5Entry 1709305200000 false).1.breakHours = 1/2 ∧
      (calculateEntryHours 0 c5Entry 1709305200000 false).1.netHours = 15/2 ∧
      (calculateEntryHours 0 c5Entry 1709305200000 false).1.status = Status.partialDay) ∧
    (((calculateEntryHours 0 sampleClosedEntry 30000000 false).1.checkOut = none →
        (calculateEntryHours 0 sampleClosedEntry 30000000 false).1.status =
          Status.in_progress) ∧
      (∀ c : Int,
        (calculateEntryHours 0 sampleClosedEntry 30000000 false).1.checkOut = some c →
        (calculateEntryHours 0 sampleClosedEntry 30000000 false).1.status =
          (if (calculateEntryHours 0 sampleClosedEntry 30000000 false).1.netHours +
              (calculateEntryHours 0 sampleClosedEntry 30000000 false).1.overtimeHours ≥ 8
            then Status.completed
            else if (calculateEntryHours 0 sampleClosedEntry 30000000 false).1.netHours ≥ 4
            then Status.partialDay
            else Status.present))) :=
  ⟨c5_scenario_and_status_rule.1 1709305200000,
   c5_scenario_and_status_rule.2 0 sampleClosedEntry 30000000 0 rfl⟩

/-- C8: when today's entry is found but is in the wrong state — pause on
an entry with no open check-in or an entry already checked out, resume
when the last break is missing or already ended, continue on an entry
whose checkOut is absent — the handler rejects the call with an error and
the stored tracking document is unchanged. -/
theorem c8_invalid_state_rejected (off : Int) (tr : Tracking) (now : Int)
    (e : TimeEntry) (hfind : findTodayEntry off tr.entries now = some e) :
    ((e.checkIn.isNone || e.checkOut.isSome) = true →
      startPause off tr now = Except.error OpError.mustBeWorking ∧
      runTracking (startPause off tr now) tr = tr) ∧
    (e.checkIn.isSome = true → e.breaks.getLast? = none →
      resumeWork off tr now = Except.error OpError.noOpenBreak ∧
      runTracking (resumeWork off tr now) tr = tr) ∧
    (∀ lb : Break, e.checkIn.isSome = true → e.breaks.getLast? = some lb →
      lb.stop.isSome = true →
      resumeWork off tr now = Except.error OpError.noOpenBreak ∧
      runTracking (resumeWork off tr now) tr = tr) ∧
    (e.checkIn.isSome = true → e.checkOut = none →
      continueWork off tr now = Except.error OpError.dayStillOpen ∧
      runTracking (continueWork off tr now) tr = tr) := by
  refine ⟨?_, ?_, ?_, ?_⟩
  · intro hg
    have h1 : startPause off tr now = Except.error OpError.mustBeWorking := by
      simp [startPause, hfind, hg]
    exact ⟨h1, by rw [h1]; rfl⟩
  · intro hs hl
    obtain ⟨v, hv⟩ := Option.isSome_iff_exists.mp hs
    have h1 : resumeWork off tr now = Except.error OpError.noOpenBreak := by
      simp [resumeWork, hfind, hv, hl]
    exact ⟨h1, by rw [h1]; rfl⟩
  · intro lb hs hl hstop
    obtain ⟨v, hv⟩ := Option.isSome_iff_exists.mp hs
    have h1 : resumeWork off tr now = Except.error OpError.noOpenBreak := by
      simp [resumeWork, hfind, hv, hl, hstop]
    exact ⟨h1, by rw [h1]; rfl⟩
  · intro hs hco
    obtain ⟨v, hv⟩ := Option.isSome_iff_exists.mp hs
    have h1 : continueWork off tr now = Except.error OpError.dayStillOpen := by
      simp [continueWork, hfind, hv, hco]
    exact ⟨h1, by rw [h1]; rfl⟩

/-- C8 witness: the four rejection cases evaluated on concrete tracking
states (a closed entry and an open break-less entry). -/
theorem c8_witness :
    (startPause 0 closedTracking 37800000 = Except.error OpError.mustBeWorking ∧
      runTracking (startPause 0 closedTracking 37800000) closedTracking =
        closedTracking) ∧
    (resumeWork 0 openTracking 37800000 = Except.error OpError.noOpenBreak ∧
      runTracking (resumeWork 0 openTracking 37800000) openTracking = openTracking) ∧
    (resumeWork 0 closedTracking 37800000 = Except.error OpError.noOpenBreak ∧
      runTracking (resumeWork 0 closedTracking 37800000) closedTracking =
        closedTracking) ∧
    (continueWork 0 openTracking 37800000 = Except.error OpError.dayStillOpen ∧
      runTracking (continueWork 0 openTracking 37800000) openTracking =
        openTracking) :=
  ⟨(c8_invalid_state_rejected 0 closedTracking 37800000 sampleClosedEntry
      (by decide)).1 (by decide),
   (c8_invalid_state_rejected 0 openTracking 37800000 openEntryNoBreaks
      (by decide)).2.1 (by decide) (by decide),
   (c8_invalid_state_rejected 0 closedTracking 37800000 sampleClosedEntry
      (by decide)).2.2.1 ⟨10800000, some 12600000, some 30⟩ (by decide) (by decide)
      (by decide),
   (c8_invalid_state_rejected 0 openTracking 37800000 openEntryNoBreaks
      (by decide)).2.2.2 (by decide) (by decide)⟩

theorem autoStage_open_snd (off : Int) (e : TimeEntry) (ci now : Int)
    (hco : e.checkOut = none) :
    (autoCheckoutStage off e ci now false).2.2.1 = breakHoursLive e.breaks now := by
  by_cases hA : ((getUTCHours (getMadaTime now) == 0) ||
      (getMadaDateString ci != getMadaDateString now)) = true
  · simp [autoCheckoutStage, hco, hA, breakHoursClosed_closeOpen]
    rw [if_neg (by split <;> decide)]
  · simp only [Bool.not_eq_true] at hA
    simp [autoCheckoutStage, hco, hA]

theorem calc_open_breakHours (off : Int) (e : TimeEntry) (now ci : Int)
    (hci : e.checkIn = some ci) (hco : e.checkOut = none) :
    (calculateEntryHours off e now false).1.breakHours = breakHoursLive e.breaks now := by
  have hr : (calculateEntryHours off e now false).1 =
      applyNetAndStatus (autoCheckoutStage off e ci now false).1
        (autoCheckoutStage off e ci now false).2.1
        (autoCheckoutStage off e ci now false).2.2.1 := by
    simp [calculateEntryHours, hci]
  rw [hr, applyNet_breakHours, autoStage_open_snd off e ci now hco]

/-- C10: calling startPause on an open entry that is already paused (its
last break has no end) is accepted, not rejected, and appends a second
open break; and for an entry carrying two open breaks, the calculator
counts the elapsed time since each break's start toward breakHours, so
the overlap of the two open breaks is counted twice. -/
theorem c10_double_open_break :
    (∀ (off : Int) (tr : Tracking) (now : Int) (e : TimeEntry) (lb : Break),
      findTodayEntry off tr.entries now = some e →
      e.checkIn.isSome = true → e.checkOut = none →
      e.breaks.getLast? = some lb → lb.stop = none →
      startPause off tr now = Except.ok
        { tr with
            entries :=
              updateFirst (isTodayEntry off now)
                (fun e2 =>
                  { e2 with breaks := e2.breaks ++ [⟨now, none, none⟩], isPaused := true })
                tr.entries }) ∧
    (∀ (off : Int) (e : TimeEntry) (ci s1 s2 : Int) (d1 d2 : Option ℚ) (now : Int),
      e.checkIn = some ci → e.checkOut = none →
      e.breaks = [⟨s1, none, d1⟩, ⟨s2, none, d2⟩] →
      (calculateEntryHours off e now false).1.breakHours =
        hoursBetween s1 now + hoursBetween s2 now) := by
  constructor
  · intro off tr now e lb hfind hs hco hlast hstop
    obtain ⟨v, hv⟩ := Option.isSome_iff_exists.mp hs
    simp [startPause, hfind, hv, hco]
  · intro off e ci s1 s2 d1 d2 now hci hco hbs
    rw [calc_open_breakHours off e now ci hci hco, hbs]
    simp [breakHoursLive, liveBreakStep]

/-- C10 witness: the paused-entry pause call succeeds on
`pausedTracking`, and the double-count is exhibited on
`doubleBreakEntry`. -/
theorem c10_witness :
    startPause 0 pausedTracking 37800000 = Except.ok
      { pausedTracking with
          entries :=
            updateFirst (isTodayEntry 0 37800000)
              (fun e2 =>
                { e2 with breaks := e2.breaks ++ [⟨37800000, none, none⟩], isPaused := true })
              pausedTracking.entries } ∧
    (calculateEntryHours 0 doubleBreakEntry 39600000 false).1.breakHours =
      hoursBetween 37000000 39600000 + hoursBetween 37800000 39600000 :=
  ⟨c10_double_open_break.1 0 pausedTracking 37800000 pausedEntry
      ⟨37000000, none, none⟩ (by decide) (by decide) (by decide) (by decide) (by decide),
   c10_double_open_break.2 0 doubleBreakEntry 36000000 37000000 37800000 none none
      39600000 (by decide) (by decide) (by decide)⟩

/-- C3 (amended): `createOrUpdateEntry` (check-in and check-out)
recomputes totalHoursMonth as the sum of the entries' netHours before
persisting; startPause and resumeWork change no entry's netHours and
leave totalHoursMonth alone, so they preserve the equality when it held;
but `continueWork` recomputes the entry's netHours without updating
totalHoursMonth, so the equality can fail after it (see the
counterexample). -/
theorem c3_amended :
    (∀ (off : Int) (tr : Tracking) (d : EntryData) (now : Int),
      (createOrUpdateEntryIn off tr d now).totalHoursMonth =
        sumNetHours (createOrUpdateEntryIn off tr d now).entries) ∧
    (∀ (off : Int) (tr : Tracking) (now : Int) (tr' : Tracking),
      tr.totalHoursMonth = sumNetHours tr.entries →
      startPause off tr now = Except.ok tr' →
      tr'.totalHoursMonth = sumNetHours tr'.entries) ∧
    (∀ (off : Int) (tr : Tracking) (now : Int) (tr' : Tracking),
      tr.totalHoursMonth = sumNetHours tr.entries →
      resumeWork off tr now = Except.ok tr' →
      tr'.totalHoursMonth = sumNetHours tr'.entries) := by
  refine ⟨?_, ?_, ?_⟩
  · intro off tr d now
    rfl
  · intro off tr now tr' hinv hok
    cases hfind : findTodayEntry off tr.entries now with
    | none => simp [startPause, hfind] at hok
    | some e =>
        by_cases hg : (e.checkIn.isNone || e.checkOut.isSome) = true
        · simp [startPause, hfind, hg] at hok
        · simp only [Bool.not_eq_true] at hg
          simp [startPause, hfind, hg] at hok
          have hU : sumNetHours (updateFirst (isTodayEntry off now)
              (fun e2 =>
                { e2 with breaks := e2.breaks ++ [⟨now, none, none⟩], isPaused := true })
              tr.entries) = sumNetHours tr.entries := by
            refine sumNet_updateFirst _ _ ?_ _
            intro a
            rfl
          rw [← hok]
          exact hinv.trans hU.symm
  · intro off tr now tr' hinv hok
    cases hfind : findTodayEntry off tr.entries now with
    | none => simp [resumeWork, hfind] at hok
    | some e =>
        by_cases hci : e.checkIn.isNone = true
        · simp [resumeWork, hfind, hci] at hok
        · simp only [Bool.not_eq_true] at hci
          cases hlast : e.breaks.getLast? with
          | none => simp [resumeWork, hfind, hci, hlast] at hok
          | some lb =>
              by_cases hstop : lb.stop.isSome = true
              · simp [resumeWork, hfind, hci, hlast, hstop] at hok
              · simp only [Bool.not_eq_true] at hstop
                simp [resumeWork, hfind, hci, hlast, hstop] at hok
                have hU : sumNetHours (updateFirst (isTodayEntry off now)
                    (fun e2 =>
                      match e2.breaks.getLast? with
                      | none => e2
                      | some lb2 =>
                          { e2 with
                              breaks := e2.breaks.dropLast ++
                                [⟨lb2.start, some now, some (minutesBetween lb2.start now)⟩]
                              isPaused := false
                              lastResumeTime := some now })
                    tr.entries) = sumNetHours tr.entries := by
                  refine sumNet_updateFirst _ _ ?_ _
                  intro a
                  cases hA : a.breaks.getLast? <;> simp [hA]
                rw [← hok]
                exact hinv.trans hU.symm

/-- C3 witness: the aggregation equality after a concrete check-in via
`createOrUpdateEntryIn`, and its preservation across concrete
`startPause` and `resumeWork` calls on `pausedTracking`. -/
theorem c3_witness :
    ((createOrUpdateEntryIn 0 closedTracking
        ⟨37800000, some 37800000, none, some Status.present, none⟩
        37800000).totalHoursMonth =
      sumNetHours (createOrUpdateEntryIn 0 closedTracking
        ⟨37800000, some 37800000, none, some Status.present, none⟩
        37800000).entries) ∧
    ((runTracking (startPause 0 pausedTracking 37800000) pausedTracking).totalHoursMonth =
      sumNetHours
        (runTracking (startPause 0 pausedTracking 37800000) pausedTracking).entries) ∧
    ((runTracking (resumeWork 0 pausedTracking 37800000) pausedTracking).totalHoursMonth =
      sumNetHours
        (runTracking (resumeWork 0 pausedTracking 37800000) pausedTracking).entries) :=
  ⟨c3_amended.1 0 closedTracking
      ⟨37800000, some 37800000, none, some Status.present, none⟩ 37800000,
   c3_amended.2.1 0 pausedTracking 37800000
      (runTracking (startPause 0 pausedTracking 37800000) pausedTracking)
      (by decide) (by decide),
   c3_amended.2.2 0 pausedTracking 37800000
      (runTracking (resumeWork 0 pausedTracking 37800000) pausedTracking)
      (by decide) (by decide)⟩
